import Mathlib

/-!
Verification of the movie-render orchestration pipeline of this repository.

The development shallowly embeds the Python sources:
  - src/shared/scripts/core/scene_builder.py  (Scene, MovieProject)
  - src/shared/scripts/core/renderer.py       (render_scene, _build_render_script)
  - src/shared/scripts/core/compositing.py    (concatenate_videos)
  - src/scripts/build_movie.py                (the single-project entry point)
  - src/scripts/batch_render.py               (the batch entry point)

Python dicts are embedded as association lists queried by first-match
lookup.  `dict.update` is modelled observationally: looking a key up in
the updated copy consults the updating entries first and falls back to
the base entries; no code in the pipeline iterates over dict entries, so
lookup behaviour is the whole observable interface.

The filesystem is embedded as a set of directory paths and a set of file
paths; external processes are embedded as `spawn` events carrying the
argument vector, with the child's exit code supplied by an oracle
parameter (the orchestration layer treats the child as opaque).
-/

/-- A YAML / Python scalar value as it flows through the pipeline's config
dicts: strings, integers and booleans. -/
inductive Val where
  | str (s : String)
  | int (n : Int)
  | bool (b : Bool)
deriving DecidableEq, Repr

/-- Python str() of a scalar, as used by f-string interpolation in
`_build_render_script` (renderer.py lines 102-135). -/
def Val.toPy : Val → String
  | .str s => s
  | .int n => toString n
  | .bool b => if b then "True" else "False"

/-- Python truthiness of a scalar (`if config[\x27denoising\x27]:`). -/
def Val.truthy : Val → Bool
  | .str s => s ≠ ""
  | .int n => n ≠ 0
  | .bool b => b

/-- A Python dict of config values, embedded as an association list with
first-match lookup. -/
abbrev Dict := List (String × Val)

/-- Lookup in a config dict (`config[\x27engine\x27]` guarded by
`\x27engine\x27 in config`). -/
def Dict.dget (d : Dict) (k : String) : Option Val := List.lookup k d

/-- `base.copy(); base.update(upd)` (build_movie.py lines 59-64,
batch_render.py lines 102-104), modelled observationally: lookup consults
`upd` first, then `base`. -/
def Dict.update (base upd : Dict) : Dict := upd ++ base

/-- One scene of a movie (scene_builder.py, class Scene).  `blend_file`
is the path already resolved against the project directory at load time
(`str(self.project_dir / scene_data[\x27blend_file\x27])`,
scene_builder.py line 56). -/
structure Scene where
  name : String
  blend_file : String
  frame_start : Int
  frame_end : Int
  config : Dict
deriving DecidableEq, Repr

/-- A loaded movie project (scene_builder.py, class MovieProject).  The
fields `movie`, `render`, `output` are the sections the accessors
`movie_config`, `render_config`, `output_config` return
(`self.definition.get(..., \x7b\x7d)`); a missing section is the empty
dict.  `project_dir` is the directory holding the definition file. -/
structure MovieProject where
  project_dir : String
  movie : Dict
  render : Dict
  output : Dict
  scenes : List Scene
deriving DecidableEq, Repr

/-- Parent directory of a slash-separated path, as `Path(p).parent`
is used on the pipeline's always-multi-component paths. -/
def parentDir (p : String) : String :=
  String.intercalate "/" (p.splitOn "/").dropLast

/-- `self.output_config.get(\x27final_video\x27, \x27renders/final/output.mp4\x27)`
(scene_builder.py line 97). -/
def MovieProject.finalVideoRel (p : MovieProject) : String :=
  match p.output.dget "final_video" with
  | some v => v.toPy
  | none => "renders/final/output.mp4"

/-- `get_output_path` (scene_builder.py lines 90-99), absolute variant. -/
def MovieProject.get_output_path (p : MovieProject) : String :=
  p.project_dir ++ "/" ++ p.finalVideoRel

/-- `get_frames_dir(scene_name)` (scene_builder.py lines 101-105),
with a scene name given. -/
def MovieProject.framesDir (p : MovieProject) (scene_name : String) : String :=
  p.project_dir ++ "/renders/frames/" ++ scene_name

/-- The per-scene output pattern both entry points build:
`str(frames_dir / f"\x7bscene.name\x7d_####")` (build_movie.py line 82,
batch_render.py line 111). -/
def MovieProject.outputPattern (p : MovieProject) (scene_name : String) : String :=
  p.framesDir scene_name ++ "/" ++ scene_name ++ "_####"

/-- The loop body of `get_scene` (scene_builder.py lines 83-88): first
scene whose name equals the argument, else None. -/
def findSceneByName (name : String) : List Scene → Option Scene
  | [] => none
  | s :: rest => if s.name = name then some s else findSceneByName name rest

/-- `get_scene` (scene_builder.py lines 83-88). -/
def MovieProject.get_scene (p : MovieProject) (name : String) : Option Scene :=
  findSceneByName name p.scenes

/-- The blend-file loop of `validate` (scene_builder.py lines 139-142):
one error per scene whose resolved blend file does not exist, in scene
order.  `fs` is the set of paths that exist on disk. -/
def blendErrors (fs : List String) : List Scene → List String
  | [] => []
  | s :: rest =>
      (if s.blend_file ∈ fs then [] else ["Blend file not found: " ++ s.blend_file])
        ++ blendErrors fs rest

/-- `validate` (scene_builder.py lines 122-144): collects error strings,
never raises.  `fs` is the set of paths that exist on disk. -/
def MovieProject.validate (p : MovieProject) (fs : List String) : List String :=
  (if p.movie = ([] : Dict) then ["Missing \x27movie\x27 section in definition"] else [])
    ++ (if p.scenes = [] then ["No scenes defined"] else [])
    ++ blendErrors fs p.scenes

/-- An observable side effect of the pipeline: a `Path.mkdir` call (with
its `exist_ok` flag; `parents=True` is the only mode the pipeline uses),
a `Path.touch`, a `subprocess.run` of an argument vector, an ordered
write of text lines to a file, and a `Path.unlink`. -/
inductive Event where
  | mkdirP (path : String) (exist_ok : Bool)
  | touch (path : String)
  | spawn (cmd : List String)
  | writeLines (path : String) (lines : List String)
  | unlink (path : String)
deriving DecidableEq, Repr

/-- Whether an event spawns an external process. -/
def Event.isSpawn : Event → Bool
  | .spawn _ => true
  | _ => false

/-- The events `setup_output_directories` emits: only mkdir and touch. -/
def Event.isSetup : Event → Bool
  | .mkdirP _ _ => true
  | .touch _ => true
  | _ => false

/-- Events whose filesystem application cannot raise: mkdir with
`exist_ok=True`, touch, writes, spawns. -/
def Event.benign : Event → Bool
  | .mkdirP _ exist_ok => exist_ok
  | .unlink _ => false
  | _ => true

/-- The filesystem as the pipeline observes it: the set of existing
directories and the set of existing files, each kept as a
insertion-ordered duplicate-free list. -/
structure FS where
  dirs : List String
  files : List String
deriving DecidableEq, Repr

/-- Insert each element absent from the list, preserving order. -/
def addAll (base : List String) (xs : List String) : List String :=
  xs.foldl (fun acc x => if x ∈ acc then acc else acc ++ [x]) base

/-- Every slash-separated prefix of a path, the path itself included:
what `mkdir(parents=True)` brings into existence. -/
def ancestorPaths (p : String) : List String :=
  let parts := p.splitOn "/"
  ((List.range (parts.length - 1)).map
      (fun i => String.intercalate "/" (parts.take (i + 1)))) ++ [p]

/-- Total filesystem semantics of one event, used for the events the
pipeline emits on its non-raising paths. -/
def FS.applyE (fs : FS) : Event → FS
  | .mkdirP d _ =>
      if d ∈ fs.dirs then fs else { fs with dirs := addAll fs.dirs (ancestorPaths d) }
  | .touch f =>
      if f ∈ fs.files then fs else { fs with files := fs.files ++ [f] }
  | .writeLines f _ =>
      if f ∈ fs.files then fs else { fs with files := fs.files ++ [f] }
  | .spawn _ => fs
  | .unlink f => { fs with files := fs.files.erase f }

/-- Filesystem semantics of one event with Python's error behaviour:
`mkdir(exist_ok=False)` raises FileExistsError on an existing directory,
`unlink` raises FileNotFoundError on a missing file. -/
def FS.applyEvent (fs : FS) : Event → Except String FS
  | .mkdirP d exist_ok =>
      if d ∈ fs.dirs then
        if exist_ok then .ok fs else .error ("FileExistsError: " ++ d)
      else .ok { fs with dirs := addAll fs.dirs (ancestorPaths d) }
  | .unlink f =>
      if f ∈ fs.files then .ok { fs with files := fs.files.erase f }
      else .error ("FileNotFoundError: " ++ f)
  | e => .ok (fs.applyE e)

/-- Run a trace of events against the filesystem, stopping at the first
raising event. -/
def FS.applyEvents (fs : FS) : List Event → Except String FS
  | [] => .ok fs
  | e :: rest =>
      match fs.applyEvent e with
      | .ok fs2 => fs2.applyEvents rest
      | .error m => .error m

/-- Run a trace of events with the total semantics. -/
def FS.runEvents (fs : FS) (l : List Event) : FS := l.foldl FS.applyE fs

/-- The per-scene loop of `setup_output_directories` (scene_builder.py
lines 110-115): for each scene, mkdir its frames directory (parents,
exist_ok) and touch a `.gitkeep` marker inside it. -/
def setupSceneEvents (p : MovieProject) : List Scene → List Event
  | [] => []
  | s :: rest =>
      Event.mkdirP (p.framesDir s.name) true
        :: Event.touch (p.framesDir s.name ++ "/.gitkeep")
        :: setupSceneEvents p rest

/-- `setup_output_directories` (scene_builder.py lines 107-120): the
scene loop, then mkdir of the final output's parent directory plus its
`.gitkeep` marker. -/
def MovieProject.setupEvents (p : MovieProject) : List Event :=
  setupSceneEvents p p.scenes
    ++ [Event.mkdirP (parentDir p.get_output_path) true,
        Event.touch (parentDir p.get_output_path ++ "/.gitkeep")]

/-- The directories a trace asks to create, in order. -/
def mkdirTargets (l : List Event) : List String :=
  l.filterMap (fun e => match e with | .mkdirP d _ => some d | _ => none)

/-- The marker files a trace touches, in order. -/
def touchTargets (l : List Event) : List String :=
  l.filterMap (fun e => match e with | .touch f => some f | _ => none)

/-- `_build_render_script` (renderer.py lines 86-135): the inline Python
configuration script handed to the external renderer.  Each recognised
key contributes its directive; unrecognised or absent keys contribute
nothing (permissive merge). -/
def buildRenderScript (output_path : String) (frame_start frame_end : Int)
    (render_config : Option Dict) : String :=
  let config := render_config.getD []
  let parts : List String :=
    ["import bpy",
     "bpy.context.scene.frame_start = " ++ toString frame_start,
     "bpy.context.scene.frame_end = " ++ toString frame_end,
     "bpy.context.scene.render.filepath = \x27" ++ output_path ++ "\x27"]
    ++ (match config.dget "engine" with
        | some v => ["bpy.context.scene.render.engine = \x27" ++ v.toPy ++ "\x27"]
        | none => [])
    ++ (match config.dget "samples" with
        | some v => ["bpy.context.scene.cycles.samples = " ++ v.toPy]
        | none => [])
    ++ (match config.dget "resolution_percentage" with
        | some v => ["bpy.context.scene.render.resolution_percentage = " ++ v.toPy]
        | none => [])
    ++ (match config.dget "denoising" with
        | some v => if v.truthy then ["bpy.context.scene.cycles.use_denoising = True"] else []
        | none => [])
    ++ (match config.dget "device" with
        | some v =>
            if v = Val.str "GPU" then
              ["bpy.context.preferences.addons[\x27cycles\x27].preferences.compute_device_type = \x27CUDA\x27",
               "bpy.context.scene.cycles.device = \x27GPU\x27"]
            else []
        | none => [])
    ++ (match config.dget "format" with
        | some v => ["bpy.context.scene.render.image_settings.file_format = \x27" ++ v.toPy ++ "\x27"]
        | none => [])
  String.intercalate "; " parts

/-- `Renderer.render_scene` (renderer.py lines 29-68).  `fs` is the set
of paths that exist on disk and `exitCode` is the oracle's exit code for
this renderer invocation.  Raising FileNotFoundError is the `.error`
branch; `.ok` carries the emitted events and the child's return code. -/
def render_scene (blender : String) (fs : List String) (exitCode : Int)
    (blend_file output_path : String) (frame_start frame_end : Int)
    (render_config : Option Dict) (background : Bool) :
    Except String (List Event × Int) :=
  if blend_file ∈ fs then
    let cmd := [blender]
      ++ (if background then ["--background"] else [])
      ++ [blend_file, "--python-expr",
          buildRenderScript output_path frame_start frame_end render_config,
          "--render-anim"]
    .ok ([Event.spawn cmd], exitCode)
  else
    .error ("Blend file not found: " ++ blend_file)

/-- The render-config merge both entry points perform
(build_movie.py lines 59-64, batch_render.py lines 102-104):
`render_config = project.render_config.copy()`, then
`render_config.update(preset_config)` when a preset was loaded.
`preset` is the already-loaded preset dict (None when no `--preset`
flag was given). -/
def buildRenderConfig (p : MovieProject) (preset : Option Dict) : Dict :=
  match preset with
  | none => p.render
  | some pc => Dict.update p.render pc

/-- The scene loop of build_movie.py main (lines 77-102): render each
scene; a FileNotFoundError from `render_scene` propagates to the
entry point's catch-all which returns 1; a non-zero renderer exit code
is returned directly (`return result`).  Returns the exit code and the
emitted events.  `exitOf` is the oracle giving the renderer's exit code
per scene name. -/
def buildRenderLoop (blender : String) (fs : List String) (exitOf : String → Int)
    (p : MovieProject) (cfg : Dict) : List Scene → Int × List Event
  | [] => (0, [])
  | s :: rest =>
      match render_scene blender fs (exitOf s.name) s.blend_file
          (p.outputPattern s.name) s.frame_start s.frame_end (some cfg) true with
      | .error _ => (1, [])
      | .ok (evs, code) =>
          if code = 0 then
            let r := buildRenderLoop blender fs exitOf p cfg rest
            (r.1, evs ++ r.2)
          else (code, evs)

/-- build_movie.py `main` (lines 20-109), from the point where the
project is loaded: validate (return 1 on any error), set up output
directories, honour `--dry-run`, merge the preset over the movie-level
render config, resolve the optional `--scene` filter (return 1 when the
named scene is absent), then render.  Returns the exit code and the
emitted events. -/
def buildMovieMain (blender : String) (fs : List String) (exitOf : String → Int)
    (p : MovieProject) (sceneFilter : Option String) (preset : Option Dict)
    (dryRun : Bool) : Int × List Event :=
  if p.validate fs = [] then
    let setupEvs := p.setupEvents
    if dryRun then (0, setupEvs)
    else
      let cfg := buildRenderConfig p preset
      match sceneFilter with
      | some name =>
          match p.get_scene name with
          | none => (1, setupEvs)
          | some s =>
              let r := buildRenderLoop blender fs exitOf p cfg [s]
              (r.1, setupEvs ++ r.2)
      | none =>
          if p.scenes = [] then (1, setupEvs)
          else
            let r := buildRenderLoop blender fs exitOf p cfg p.scenes
            (r.1, setupEvs ++ r.2)
  else (1, [])

/-- The scene loop of batch_render.py main (lines 107-122): render each
scene in definition order; a FileNotFoundError from `render_scene`
or a non-zero exit code (`raise RuntimeError`) aborts the project with
the caught exception's message.  Returns the emitted events and
None on success / the failure reason. -/
def batchRenderScenes (blender : String) (fs : List String) (exitOf : String → Int)
    (p : MovieProject) (cfg : Dict) : List Scene → List Event × Option String
  | [] => ([], none)
  | s :: rest =>
      match render_scene blender fs (exitOf s.name) s.blend_file
          (p.outputPattern s.name) s.frame_start s.frame_end (some cfg) true with
      | .error e => ([], some e)
      | .ok (evs, code) =>
          if code = 0 then
            let r := batchRenderScenes blender fs exitOf p cfg rest
            (evs ++ r.1, r.2)
          else (evs, some ("Render failed for scene: " ++ s.name))

/-- One iteration of the batch loop (batch_render.py lines 83-129) for a
discovered definition: load (a load failure is the caught exception's
message), validate (recorded as "Validation failed"), set up output
directories, merge the preset override over the movie-level render
config, render all scenes.  Returns the emitted events and None on
success / the recorded failure reason. -/
def processProject (blender : String) (fs : List String) (exitOf : String → Int)
    (override : Option Dict) (load : Except String MovieProject) :
    List Event × Option String :=
  match load with
  | .error e => ([], some e)
  | .ok p =>
      if p.validate fs = [] then
        let cfg := buildRenderConfig p override
        let r := batchRenderScenes blender fs exitOf p cfg p.scenes
        (p.setupEvents ++ r.1, r.2)
      else ([], some "Validation failed")

/-- The state the batch loop accumulates (batch_render.py lines 77-132):
emitted events, successful project paths, failed projects with reasons,
and the early-return exit code when a failure aborts the whole batch. -/
structure LoopOut where
  events : List Event
  successful : List String
  failed : List (String × String)
  early : Option Int
deriving DecidableEq, Repr

/-- The batch loop (batch_render.py lines 80-132) over the discovered
definitions, each given as its path and its load outcome.  With
`continue_on_error` unset, the first failing project returns 1
immediately; otherwise failures are recorded and the loop continues. -/
def batchLoop (blender : String) (fs : List String) (exitOf : String → Int)
    (override : Option Dict) (continue_on_error : Bool) :
    List (String × Except String MovieProject) → LoopOut
  | [] => { events := [], successful := [], failed := [], early := none }
  | d :: rest =>
      let pr := processProject blender fs exitOf override d.2
      match pr.2 with
      | none =>
          let r := batchLoop blender fs exitOf override continue_on_error rest
          { events := pr.1 ++ r.events, successful := d.1 :: r.successful,
            failed := r.failed, early := r.early }
      | some reason =>
          if continue_on_error then
            let r := batchLoop blender fs exitOf override continue_on_error rest
            { events := pr.1 ++ r.events, successful := r.successful,
              failed := (d.1, reason) :: r.failed, early := r.early }
          else
            { events := pr.1, successful := [], failed := [(d.1, reason)],
              early := some 1 }

/-- The summary batch_render.py prints (lines 134-145): total discovered
projects, the successful ones, and the failed ones with their reasons. -/
structure Summary where
  total : Nat
  successful : List String
  failed : List (String × String)
deriving DecidableEq, Repr

/-- The outcome of one batch run: the process exit code, the emitted
events, and the printed summary (None when the run returned before
reaching the summary). -/
structure BatchRun where
  exit : Int
  events : List Event
  summary : Option Summary
deriving DecidableEq, Repr

/-- batch_render.py `main` (lines 41-147) from the point where discovery
has produced the list of definitions: return 1 when none were found,
run the batch loop (honouring its early return), then report the
summary and return 0 iff no project failed. -/
def batchMain (blender : String) (fs : List String) (exitOf : String → Int)
    (override : Option Dict) (continue_on_error : Bool)
    (defs : List (String × Except String MovieProject)) : BatchRun :=
  if defs.isEmpty then { exit := 1, events := [], summary := none }
  else
    let r := batchLoop blender fs exitOf override continue_on_error defs
    match r.early with
    | some code => { exit := code, events := r.events, summary := none }
    | none =>
        { exit := if r.failed = [] then 0 else 1,
          events := r.events,
          summary := some { total := defs.length, successful := r.successful,
                            failed := r.failed } }

/-- The manifest-writing loop of `concatenate_videos` (compositing.py
lines 103-105): one line `file \x27<path>\x27` per input video, in list
order. -/
def concatLines : List String → List String
  | [] => []
  | v :: rest => ("file \x27" ++ v ++ "\x27") :: concatLines rest

/-- The manifest path `Path(output_path).parent / "concat_list.txt"`
(compositing.py line 102). -/
def concatListPath (output_path : String) : String :=
  parentDir output_path ++ "/concat_list.txt"

/-- `_get_default_codec_config` (compositing.py lines 165-174). -/
def defaultCodecConfig : Dict :=
  [("codec", Val.str "libx264"),
   ("preset", Val.str "medium"),
   ("crf", Val.int 18),
   ("pixel_format", Val.str "yuv420p"),
   ("audio_codec", Val.str "aac"),
   ("audio_bitrate", Val.str "320k")]

/-- `Compositor.concatenate_videos` (compositing.py lines 88-131):
write the manifest listing the inputs in order, run the encoder on it,
then unlink the manifest; the encoder's return code (the oracle
`exitCode`) is returned as-is.  The unlink is unconditional: it runs
whether the encoder exited with zero or not. -/
def concatenate_videos (ffmpeg : String) (exitCode : Int)
    (video_paths : List String) (output_path : String)
    (codec_config : Option Dict) : List Event × Int :=
  let concat_file := concatListPath output_path
  let config := match codec_config with
    | some c => c
    | none => defaultCodecConfig
  let cmd := [ffmpeg, "-y", "-f", "concat", "-safe", "0", "-i", concat_file]
    ++ (match config.dget "codec" with
        | some v => ["-c:v", v.toPy]
        | none => [])
    ++ [output_path]
  ([Event.writeLines concat_file (concatLines video_paths),
    Event.spawn cmd,
    Event.unlink concat_file], exitCode)

/-! ## Helper lemmas -/

theorem lookup_append (k : String) (l1 l2 : Dict) :
    List.lookup k (l1 ++ l2) = (List.lookup k l1).or (List.lookup k l2) := by
  induction l1 with
  | nil => simp
  | cons kv rest ih =>
      by_cases h : k = kv.1
      · simp [List.lookup, h]
      · have hb : (k == kv.1) = false := by simp [h]
        simp [List.lookup, hb, ih]

theorem blendErrors_eq_nil (fs : List String) (l : List Scene) :
    blendErrors fs l = [] ↔ ∀ s ∈ l, s.blend_file ∈ fs := by
  induction l with
  | nil => simp [blendErrors]
  | cons s rest ih =>
      by_cases h : s.blend_file ∈ fs
      · simp [blendErrors, h, ih]
      · simp [blendErrors, h]

theorem blendErrors_eq_map (fs : List String) (l : List Scene) :
    blendErrors fs l =
      (l.filter (fun s => decide (s.blend_file ∉ fs))).map
        (fun s => "Blend file not found: " ++ s.blend_file) := by
  induction l with
  | nil => simp [blendErrors]
  | cons s rest ih =>
      by_cases h : s.blend_file ∈ fs
      · simp [blendErrors, h, ih]
      · simp [blendErrors, h, ih]

theorem concatLines_eq_map (paths : List String) :
    concatLines paths = paths.map (fun v => "file \x27" ++ v ++ "\x27") := by
  induction paths with
  | nil => rfl
  | cons v rest ih => simp [concatLines, ih]

/-! ## C2: validate -/

/-- C2: `validate` returns the empty list iff the movie config section is
non-empty, the scenes list is non-empty, and every scene's resolved blend
file exists; otherwise it returns exactly one error string per violated
condition, ordered movie config first, then scene presence, then one
entry per missing blend file in scene order.  (It is a total Lean
function, hence raises no exception.) -/
theorem validate_spec (p : MovieProject) (fs : List String) :
    (p.validate fs = [] ↔
      p.movie ≠ ([] : Dict) ∧ p.scenes ≠ [] ∧ ∀ s ∈ p.scenes, s.blend_file ∈ fs)
    ∧ p.validate fs =
        (if p.movie = ([] : Dict) then ["Missing \x27movie\x27 section in definition"] else [])
        ++ (if p.scenes = [] then ["No scenes defined"] else [])
        ++ (p.scenes.filter (fun s => decide (s.blend_file ∉ fs))).map
            (fun s => "Blend file not found: " ++ s.blend_file) := by
  constructor
  · by_cases hm : p.movie = ([] : Dict) <;> by_cases hs : p.scenes = [] <;>
      simp [MovieProject.validate, hm, hs, blendErrors_eq_nil]
  · simp [MovieProject.validate, blendErrors_eq_map]

/-! ## C5 and C9: concatenate_videos -/

/-- C5: `concatenate_videos` writes the transient manifest with the
inputs in exactly the given list order: the first emitted event is the
manifest write and its lines are the input paths in order, each wrapped
as a `file \x27...\x27` directive. -/
theorem concatenate_videos_order_spec (ffmpeg : String) (exitCode : Int)
    (video_paths : List String) (output_path : String) (cc : Option Dict) :
    (concatenate_videos ffmpeg exitCode video_paths output_path cc).1.head? =
      some (Event.writeLines (concatListPath output_path)
        (video_paths.map (fun v => "file \x27" ++ v ++ "\x27"))) := by
  simp [concatenate_videos, concatLines_eq_map]

/-- C9: for every call to `concatenate_videos` (in particular for every
encoder exit code, zero or not), the trace ends with the unlink of the
manifest file, after the encoder spawn; the encoder's exit code is
returned unchanged. -/
theorem concat_manifest_cleanup_spec (ffmpeg : String) (exitCode : Int)
    (video_paths : List String) (output_path : String) (cc : Option Dict) :
    (∃ lines cmd,
        (concatenate_videos ffmpeg exitCode video_paths output_path cc).1 =
          [Event.writeLines (concatListPath output_path) lines,
           Event.spawn cmd,
           Event.unlink (concatListPath output_path)])
    ∧ (concatenate_videos ffmpeg exitCode video_paths output_path cc).2 = exitCode :=
  ⟨⟨_, _, rfl⟩, rfl⟩

/-! ## C6: render_scene precondition -/

/-- C6: `render_scene` fails with the blend-file-not-found error, spawning
nothing, whenever the given blend file does not exist; and when the file
exists it spawns exactly one child process and returns its exit code. -/
theorem render_scene_precondition_spec (blender : String) (fs : List String)
    (exitCode : Int) (blend_file output_path : String) (frame_start frame_end : Int)
    (render_config : Option Dict) (background : Bool) :
    (blend_file ∉ fs →
      render_scene blender fs exitCode blend_file output_path frame_start frame_end
          render_config background
        = .error ("Blend file not found: " ++ blend_file))
    ∧ (blend_file ∈ fs → ∃ cmd,
        render_scene blender fs exitCode blend_file output_path frame_start frame_end
            render_config background
          = .ok ([Event.spawn cmd], exitCode)) := by
  constructor
  · intro h; simp [render_scene, h]
  · intro h
    refine ⟨[blender] ++ (if background then ["--background"] else [])
      ++ [blend_file, "--python-expr",
          buildRenderScript output_path frame_start frame_end render_config,
          "--render-anim"], ?_⟩
    simp [render_scene, h]

/-- Witness for C6 at concrete inputs: a missing blend file raises before
any event, an existing one spawns the renderer once. -/
theorem render_scene_precondition_witness :
    ("missing.blend" ∉ ([] : List String)
      ∧ render_scene "blender" [] 7 "missing.blend" "out" 1 2 none true
          = .error ("Blend file not found: " ++ "missing.blend"))
    ∧ ("a.blend" ∈ ["a.blend"]
      ∧ ∃ cmd, render_scene "blender" ["a.blend"] 7 "a.blend" "out" 1 2 none true
          = .ok ([Event.spawn cmd], 7)) :=
  ⟨⟨by simp,
    (render_scene_precondition_spec "blender" [] 7 "missing.blend" "out" 1 2 none true).1
      (by simp)⟩,
   ⟨by simp,
    (render_scene_precondition_spec "blender" ["a.blend"] 7 "a.blend" "out" 1 2 none true).2
      (by simp)⟩⟩

/-! ## C1: render-config merge -/

/-- A concrete scene whose scene-level config sets `samples` to 128. -/
def sceneC1 : Scene :=
  { name := "s1", blend_file := "/proj/s1.blend", frame_start := 1, frame_end := 10,
    config := [("samples", Val.int 128)] }

/-- A concrete project whose movie-level render defaults set `samples`
to 64, holding `sceneC1`. -/
def projC1 : MovieProject :=
  { project_dir := "/proj", movie := [("title", Val.str "demo")],
    render := [("samples", Val.int 64)], output := [], scenes := [sceneC1] }

set_option maxRecDepth 8192 in
/-- Counterexample to C1 as stated: in `projC1`, the key `samples` is
present in both the scene-level config (value 128) and the movie-level
render defaults (value 64), yet the effective render configuration both
entry points pass to the renderer carries the movie-level value 64 when
no preset is loaded, and the preset value 256 when a preset setting
`samples` to 256 is loaded — never the scene-level value.  The actual
renderer invocation of the single-project entry point confirms it: the
spawned command embeds the configuration script built from the
movie-level defaults, ignoring the scene-level config. -/
theorem config_merge_scene_counterexample :
    sceneC1 ∈ projC1.scenes
    ∧ sceneC1.config.dget "samples" = some (Val.int 128)
    ∧ projC1.render.dget "samples" = some (Val.int 64)
    ∧ (buildRenderConfig projC1 none).dget "samples" = some (Val.int 64)
    ∧ (buildRenderConfig projC1 (some [("samples", Val.int 256)])).dget "samples"
        = some (Val.int 256)
    ∧ Val.int 64 ≠ Val.int 128
    ∧ Val.int 256 ≠ Val.int 128
    ∧ (buildMovieMain "blender" ["/proj/s1.blend"] (fun _ => 0) projC1 none none
          false).2.filter Event.isSpawn
        = [Event.spawn ["blender", "--background", "/proj/s1.blend", "--python-expr",
            buildRenderScript (projC1.outputPattern "s1") 1 10 (some projC1.render),
            "--render-anim"]] := by
  refine ⟨by decide, by decide, by decide, by decide, by decide, by decide, by decide, ?_⟩
  decide

/-- C1 amended: for every render invocation of a scene, the effective
render configuration is the merge of the movie-level render defaults
with the loaded preset in which a key present in both takes the preset
value; a key present only in one layer takes that layer's value; with no
preset loaded it is exactly the movie-level render defaults.  The
scene-level config does not participate: the effective configuration is
unchanged under any replacement of the project's scene list (and hence
of every scene-level config). -/
theorem render_config_merge_amended (p : MovieProject) (pc : Dict) (k : String) :
    (buildRenderConfig p (some pc)).dget k = ((pc.dget k).or (p.render.dget k))
    ∧ (buildRenderConfig p none).dget k = p.render.dget k
    ∧ ∀ (preset : Option Dict) (ss : List Scene),
        buildRenderConfig { p with scenes := ss } preset = buildRenderConfig p preset := by
  refine ⟨?_, rfl, ?_⟩
  · simp [buildRenderConfig, Dict.update, Dict.dget, lookup_append]
  · intro preset ss
    cases preset <;> rfl

/-! ## C10: get_scene and the scene filter -/

theorem findSceneByName_some (name : String) (l : List Scene) :
    ∀ s, findSceneByName name l = some s →
      s.name = name ∧ ∃ pre post, l = pre ++ s :: post ∧ ∀ t ∈ pre, t.name ≠ name := by
  induction l with
  | nil => intro s h; simp [findSceneByName] at h
  | cons s0 rest ih =>
      intro s h
      by_cases h0 : s0.name = name
      · simp [findSceneByName, h0] at h
        subst h
        exact ⟨h0, [], rest, rfl, by simp⟩
      · simp [findSceneByName, h0] at h
        obtain ⟨hn, pre, post, heq, hpre⟩ := ih s h
        refine ⟨hn, s0 :: pre, post, by simp [heq], ?_⟩
        intro t ht
        rcases List.mem_cons.mp ht with rfl | ht2
        · exact h0
        · exact hpre t ht2

theorem findSceneByName_none (name : String) (l : List Scene) :
    findSceneByName name l = none ↔ ∀ s ∈ l, s.name ≠ name := by
  induction l with
  | nil => simp [findSceneByName]
  | cons s0 rest ih =>
      by_cases h0 : s0.name = name
      · simp [findSceneByName, h0]
      · simp [findSceneByName, h0, ih]

theorem setupSceneEvents_spawn_free (p : MovieProject) (l : List Scene) :
    ∀ e ∈ setupSceneEvents p l, e.isSpawn = false := by
  induction l with
  | nil => simp [setupSceneEvents]
  | cons s rest ih =>
      intro e he
      rcases List.mem_cons.mp he with rfl | he2
      · rfl
      · rcases List.mem_cons.mp he2 with rfl | he3
        · rfl
        · exact ih e he3

theorem setupEvents_spawn_free (p : MovieProject) :
    ∀ e ∈ p.setupEvents, e.isSpawn = false := by
  intro e he
  rcases List.mem_append.mp he with h1 | h2
  · exact setupSceneEvents_spawn_free p p.scenes e h1
  · rcases List.mem_cons.mp h2 with rfl | h3
    · rfl
    · rcases List.mem_cons.mp h3 with rfl | h4
      · rfl
      · simp at h4

/-- C10: `get_scene` returns the first scene in definition order whose
name equals the given name (the scenes before it all have other names),
and returns None exactly when no scene has that name; and when the
requested scene is absent, the single-project entry point exits with
code 1 and spawns no renderer process. -/
theorem get_scene_spec (p : MovieProject) (name : String) (blender : String)
    (fs : List String) (exitOf : String → Int) (preset : Option Dict) :
    (∀ s, p.get_scene name = some s →
      s.name = name ∧ ∃ pre post, p.scenes = pre ++ s :: post ∧ ∀ t ∈ pre, t.name ≠ name)
    ∧ (p.get_scene name = none ↔ ∀ s ∈ p.scenes, s.name ≠ name)
    ∧ (p.get_scene name = none →
        (buildMovieMain blender fs exitOf p (some name) preset false).1 = 1
        ∧ ∀ e ∈ (buildMovieMain blender fs exitOf p (some name) preset false).2,
            e.isSpawn = false) := by
  refine ⟨findSceneByName_some name p.scenes, findSceneByName_none name p.scenes, ?_⟩
  intro h
  by_cases hv : p.validate fs = []
  · simp [buildMovieMain, hv, h]
    exact setupEvents_spawn_free p
  · simp [buildMovieMain, hv]

/-- Witness for C10 at a concrete input: a project with one scene named
`s1`; requesting the absent scene `s2` makes the entry point exit 1 with
no spawned process. -/
theorem get_scene_spec_witness :
    projC1.get_scene "s2" = none
    ∧ (buildMovieMain "blender" ["/proj/s1.blend"] (fun _ => 0) projC1 (some "s2")
          none false).1 = 1
    ∧ ∀ e ∈ (buildMovieMain "blender" ["/proj/s1.blend"] (fun _ => 0) projC1
          (some "s2") none false).2, e.isSpawn = false := by
  have h := (get_scene_spec projC1 "s2" "blender" ["/proj/s1.blend"] (fun _ => 0)
    none).2.2 (by decide)
  exact ⟨by decide, h.1, h.2⟩

/-! ## C8: empty scenes list halts the pipeline -/

/-- C8: for a definition whose scenes list is empty, validation yields
the error string "No scenes defined", the single-project entry point
exits with code 1 having emitted no event (no directory creation, no
process spawn), and the batch loop records the project as failed having
emitted no event. -/
theorem empty_scenes_halt_spec (p : MovieProject) (fs : List String)
    (blender : String) (exitOf : String → Int) (preset : Option Dict)
    (sceneFilter : Option String) (dryRun : Bool) (override : Option Dict)
    (h : p.scenes = []) :
    "No scenes defined" ∈ p.validate fs
    ∧ buildMovieMain blender fs exitOf p sceneFilter preset dryRun = (1, [])
    ∧ processProject blender fs exitOf override (.ok p)
        = ([], some "Validation failed") := by
  have hmem : "No scenes defined" ∈ p.validate fs := by
    simp [MovieProject.validate, h, blendErrors]
  have hne : p.validate fs ≠ [] := by
    intro h0
    rw [h0] at hmem
    simp at hmem
  exact ⟨hmem, by simp [buildMovieMain, hne], by simp [processProject, hne]⟩

/-- A concrete project with a non-empty movie section and no scenes. -/
def projNoScenes : MovieProject :=
  { project_dir := "/proj2", movie := [("title", Val.str "empty")],
    render := [], output := [], scenes := [] }

/-- Witness for C8 at a concrete input. -/
theorem empty_scenes_halt_witness :
    "No scenes defined" ∈ projNoScenes.validate []
    ∧ buildMovieMain "blender" [] (fun _ => 0) projNoScenes none none false = (1, [])
    ∧ processProject "blender" [] (fun _ => 0) none (.ok projNoScenes)
        = ([], some "Validation failed") :=
  empty_scenes_halt_spec projNoScenes [] "blender" (fun _ => 0) none none false none rfl

/-! ## C3: batch continue-on-error semantics -/

/-- C3: in a batch over `[P1, P2]` where processing P1 fails and
processing P2 succeeds, with `continue_on_error` unset the run is
indistinguishable from a batch over `[P1]` alone — P2 is never loaded,
validated or rendered (no event of the run involves it) and the run
exits 1; with `continue_on_error` set, both projects are attempted and
the summary reports P2 as the one success and P1 as the one failure,
with exit code 1. -/
theorem batch_continue_on_error_spec (blender : String) (fs : List String)
    (exitOf : String → Int) (override : Option Dict)
    (d1 d2 : String × Except String MovieProject) (reason : String)
    (h1 : (processProject blender fs exitOf override d1.2).2 = some reason)
    (h2 : (processProject blender fs exitOf override d2.2).2 = none) :
    batchMain blender fs exitOf override false [d1, d2]
      = batchMain blender fs exitOf override false [d1]
    ∧ batchMain blender fs exitOf override false [d1, d2]
      = { exit := 1, events := (processProject blender fs exitOf override d1.2).1,
          summary := none }
    ∧ batchMain blender fs exitOf override true [d1, d2]
      = { exit := 1,
          events := (processProject blender fs exitOf override d1.2).1
            ++ (processProject blender fs exitOf override d2.2).1,
          summary := some { total := 2, successful := [d2.1],
                            failed := [(d1.1, reason)] } } := by
  refine ⟨?_, ?_, ?_⟩ <;>
    simp [batchMain, batchLoop, h1, h2]

set_option maxRecDepth 8192 in
/-- Witness for C3 at concrete inputs: `p1` (no scenes) fails validation,
`p2` (one scene, blend file present, renderer exiting 0) succeeds; the
abort-on-first-failure run over both equals the run over `p1` alone, and
the continue-on-error run reports one success and one failure. -/
theorem batch_continue_on_error_witness :
    (processProject "blender" ["/proj/s1.blend"] (fun _ => 0) none
        (.ok projNoScenes)).2 = some "Validation failed"
    ∧ (processProject "blender" ["/proj/s1.blend"] (fun _ => 0) none
        (.ok projC1)).2 = none
    ∧ batchMain "blender" ["/proj/s1.blend"] (fun _ => 0) none false
        [("p1", .ok projNoScenes), ("p2", .ok projC1)]
      = batchMain "blender" ["/proj/s1.blend"] (fun _ => 0) none false
        [("p1", .ok projNoScenes)]
    ∧ (batchMain "blender" ["/proj/s1.blend"] (fun _ => 0) none true
        [("p1", .ok projNoScenes), ("p2", .ok projC1)]).summary
      = some { total := 2, successful := ["p2"],
               failed := [("p1", "Validation failed")] } := by
  have h := batch_continue_on_error_spec "blender" ["/proj/s1.blend"] (fun _ => 0)
    none ("p1", .ok projNoScenes) ("p2", .ok projC1) "Validation failed"
    (by decide) (by decide)
  refine ⟨by decide, by decide, h.1, ?_⟩
  rw [h.2.2]

/-! ## C7: batch exit status and summary -/

theorem batchLoop_early_spec (blender : String) (fs : List String)
    (exitOf : String → Int) (override : Option Dict) (coe : Bool) :
    ∀ (defs : List (String × Except String MovieProject)) (c : Int),
      (batchLoop blender fs exitOf override coe defs).early = some c →
      c = 1 ∧ (batchLoop blender fs exitOf override coe defs).failed ≠ [] := by
  intro defs
  induction defs with
  | nil => intro c h; simp [batchLoop] at h
  | cons d rest ih =>
      intro c h
      by_cases hp : (processProject blender fs exitOf override d.2).2 = none
      · simp [batchLoop, hp] at h ⊢
        obtain ⟨hc, hf⟩ := ih c h
        exact ⟨hc, hf⟩
      · obtain ⟨reason, hr⟩ := Option.ne_none_iff_exists'.mp hp
        by_cases hcoe : coe = true
        · subst hcoe
          simp [batchLoop, hr] at h ⊢
          obtain ⟨hc, _⟩ := ih c h
          exact hc
        · simp at hcoe
          subst hcoe
          simp [batchLoop, hr] at h ⊢
          omega

/-- Counterexample to C7 as stated: when discovery finds no definitions,
the batch entry point exits 1 although the set of failed projects is
empty, so "exit status non-zero iff at least one discovered project
failed" is violated at this input. -/
theorem batch_exit_code_counterexample :
    (batchMain "blender" [] (fun _ => 0) none false []).exit = 1
    ∧ (batchLoop "blender" [] (fun _ => 0) none false []).failed = []
    ∧ ¬(((batchMain "blender" [] (fun _ => 0) none false []).exit ≠ 0)
        ↔ ((batchLoop "blender" [] (fun _ => 0) none false []).failed ≠ [])) := by
  decide

/-- C7 amended: the batch entry point's exit status is non-zero iff at
least one discovered project failed or no projects were discovered at
all; and whenever the batch loop runs to completion (no early abort) on
a non-empty discovery list, the printed summary reports the count of
discovered projects, the successful projects, and the failed projects
with their failure reasons. -/
theorem batch_exit_code_amended (blender : String) (fs : List String)
    (exitOf : String → Int) (override : Option Dict) (coe : Bool)
    (defs : List (String × Except String MovieProject)) :
    ((batchMain blender fs exitOf override coe defs).exit ≠ 0
      ↔ ((batchLoop blender fs exitOf override coe defs).failed ≠ [] ∨ defs = []))
    ∧ ((batchLoop blender fs exitOf override coe defs).early = none → defs ≠ [] →
        (batchMain blender fs exitOf override coe defs).summary
          = some { total := defs.length,
                   successful := (batchLoop blender fs exitOf override coe defs).successful,
                   failed := (batchLoop blender fs exitOf override coe defs).failed }) := by
  by_cases hd : defs = []
  · subst hd
    constructor
    · simp [batchMain, batchLoop]
    · intro _ hne
      simp at hne
  · have hne : defs.isEmpty = false := by
      simp [List.isEmpty_iff, hd]
    cases he : (batchLoop blender fs exitOf override coe defs).early with
    | some c =>
        obtain ⟨hc, hf⟩ := batchLoop_early_spec blender fs exitOf override coe defs c he
        constructor
        · simp [batchMain, hne, he, hc, hf, hd]
        · intro h0 h1
          simp at h0
    | none =>
        constructor
        · by_cases hf : (batchLoop blender fs exitOf override coe defs).failed = []
          · simp [batchMain, hne, he, hf, hd]
          · simp [batchMain, hne, he, hf, hd]
        · intro _ _
          simp [batchMain, hne, he]

/-- Witness for C7's amended statement at a concrete input: one
discovered project that fails validation; the exit code is non-zero, and
the completed loop's summary reports 1 discovered, 0 successes, 1
failure with its reason. -/
theorem batch_exit_code_amended_witness :
    ((batchMain "blender" [] (fun _ => 0) none true
        [("p1", .ok projNoScenes)]).exit ≠ 0
      ↔ ((batchLoop "blender" [] (fun _ => 0) none true
            [("p1", .ok projNoScenes)]).failed ≠ []
          ∨ ([("p1", .ok projNoScenes)] : List (String × Except String MovieProject)) = []))
    ∧ (batchMain "blender" [] (fun _ => 0) none true
        [("p1", .ok projNoScenes)]).summary
      = some { total := 1, successful := [],
               failed := [("p1", "Validation failed")] } := by
  have h := batch_exit_code_amended "blender" [] (fun _ => 0) none true
    [("p1", .ok projNoScenes)]
  refine ⟨h.1, ?_⟩
  have h2 := h.2 (by decide) (by simp)
  rw [h2]
  decide

/-! ## C4: setup_output_directories -/

theorem addAll_cons (base : List String) (x : String) (rest : List String) :
    addAll base (x :: rest) = addAll (if x ∈ base then base else base ++ [x]) rest := rfl

theorem mem_addAll_left (base xs : List String) (a : String) (h : a ∈ base) :
    a ∈ addAll base xs := by
  induction xs generalizing base with
  | nil => exact h
  | cons x rest ih =>
      rw [addAll_cons]
      by_cases hx : x ∈ base
      · rw [if_pos hx]
        exact ih base h
      · rw [if_neg hx]
        exact ih (base ++ [x]) (List.mem_append.mpr (Or.inl h))

theorem mem_addAll_right (base xs : List String) (a : String) (h : a ∈ xs) :
    a ∈ addAll base xs := by
  induction xs generalizing base with
  | nil => simp at h
  | cons x rest ih =>
      rw [addAll_cons]
      rcases List.mem_cons.mp h with rfl | h2
      · by_cases hx : a ∈ base
        · rw [if_pos hx]
          exact mem_addAll_left base rest a hx
        · rw [if_neg hx]
          exact mem_addAll_left (base ++ [a]) rest a (List.mem_append.mpr (Or.inr (by simp)))
      · by_cases hx : x ∈ base
        · rw [if_pos hx]
          exact ih base h2
        · rw [if_neg hx]
          exact ih (base ++ [x]) h2

theorem mem_ancestorPaths_self (p : String) : p ∈ ancestorPaths p := by
  simp [ancestorPaths]

/-- A setup event whose filesystem effect has already happened. -/
def Event.covered (fs : FS) : Event → Prop
  | .mkdirP d _ => d ∈ fs.dirs
  | .touch f => f ∈ fs.files
  | _ => True

theorem applyE_of_covered (fs : FS) (e : Event) (hc : e.covered fs)
    (hs : e.isSetup = true) : fs.applyE e = fs := by
  cases e with
  | mkdirP d exist_ok => simp [FS.applyE, Event.covered] at hc ⊢; simp [hc]
  | touch f => simp [FS.applyE, Event.covered] at hc ⊢; simp [hc]
  | spawn c => simp [Event.isSetup] at hs
  | writeLines f l => simp [Event.isSetup] at hs
  | unlink f => simp [Event.isSetup] at hs

theorem dirs_subset_applyE (fs : FS) (e : Event) (hs : e.isSetup = true) :
    fs.dirs ⊆ (fs.applyE e).dirs := by
  cases e with
  | mkdirP d exist_ok =>
      by_cases hd : d ∈ fs.dirs
      · simp [FS.applyE, hd]
      · intro a ha
        simpa [FS.applyE, hd] using mem_addAll_left fs.dirs (ancestorPaths d) a ha
  | touch f => by_cases hf : f ∈ fs.files <;> simp [FS.applyE, hf]
  | spawn c => simp [Event.isSetup] at hs
  | writeLines f l => simp [Event.isSetup] at hs
  | unlink f => simp [Event.isSetup] at hs

theorem files_subset_applyE (fs : FS) (e : Event) (hs : e.isSetup = true) :
    fs.files ⊆ (fs.applyE e).files := by
  cases e with
  | mkdirP d exist_ok => by_cases hd : d ∈ fs.dirs <;> simp [FS.applyE, hd]
  | touch f =>
      by_cases hf : f ∈ fs.files
      · simp [FS.applyE, hf]
      · intro a ha
        simp [FS.applyE, hf]
        exact Or.inl ha
  | spawn c => simp [Event.isSetup] at hs
  | writeLines f l => simp [Event.isSetup] at hs
  | unlink f => simp [Event.isSetup] at hs

theorem covered_mono (fs : FS) (e e2 : Event) (hs2 : e2.isSetup = true)
    (hc : e.covered fs) : e.covered (fs.applyE e2) := by
  cases e with
  | mkdirP d exist_ok => exact dirs_subset_applyE fs e2 hs2 hc
  | touch f => exact files_subset_applyE fs e2 hs2 hc
  | spawn c => trivial
  | writeLines f l => trivial
  | unlink f => trivial

theorem covered_after (fs : FS) (e : Event) (hs : e.isSetup = true) :
    e.covered (fs.applyE e) := by
  cases e with
  | mkdirP d exist_ok =>
      by_cases hd : d ∈ fs.dirs
      · simp [FS.applyE, hd, Event.covered]
      · simpa [FS.applyE, hd, Event.covered] using
          mem_addAll_right fs.dirs (ancestorPaths d) d (mem_ancestorPaths_self d)
  | touch f =>
      by_cases hf : f ∈ fs.files
      · simp [FS.applyE, hf, Event.covered]
      · simp [FS.applyE, hf, Event.covered]
  | spawn c => trivial
  | writeLines f l => trivial
  | unlink f => trivial

theorem covered_runEvents (fs : FS) (l : List Event) (e : Event)
    (hall : ∀ x ∈ l, x.isSetup = true) (hc : e.covered fs) :
    e.covered (fs.runEvents l) := by
  induction l generalizing fs with
  | nil => exact hc
  | cons e0 rest ih =>
      have h0 := hall e0 (by simp)
      exact ih (fs.applyE e0)
        (fun x hx => hall x (List.mem_cons.mpr (Or.inr hx)))
        (covered_mono fs e e0 h0 hc)

theorem runEvents_covers_all (fs : FS) (l : List Event)
    (hall : ∀ x ∈ l, x.isSetup = true) :
    ∀ e ∈ l, e.covered (fs.runEvents l) := by
  induction l generalizing fs with
  | nil => simp
  | cons e0 rest ih =>
      intro e he
      have h0 := hall e0 (by simp)
      have hrest : ∀ x ∈ rest, x.isSetup = true :=
        fun x hx => hall x (List.mem_cons.mpr (Or.inr hx))
      rcases List.mem_cons.mp he with rfl | he2
      · exact (by simpa [FS.runEvents] using
          covered_runEvents (fs.applyE e) rest e hrest (covered_after fs e h0))
      · exact (by simpa [FS.runEvents] using ih (fs.applyE e0) hrest e he2)

theorem runEvents_of_covered (fs : FS) (l : List Event)
    (hall : ∀ x ∈ l, x.isSetup = true) (hc : ∀ e ∈ l, e.covered fs) :
    fs.runEvents l = fs := by
  induction l with
  | nil => rfl
  | cons e0 rest ih =>
      have h0 : fs.applyE e0 = fs :=
        applyE_of_covered fs e0 (hc e0 (by simp)) (hall e0 (by simp))
      have : fs.runEvents (e0 :: rest) = fs.runEvents rest := by
        simp [FS.runEvents, h0]
      rw [this]
      exact ih (fun x hx => hall x (List.mem_cons.mpr (Or.inr hx)))
        (fun e he => hc e (List.mem_cons.mpr (Or.inr he)))

theorem runEvents_idem (fs : FS) (l : List Event)
    (hall : ∀ x ∈ l, x.isSetup = true) :
    (fs.runEvents l).runEvents l = fs.runEvents l :=
  runEvents_of_covered (fs.runEvents l) l hall (runEvents_covers_all fs l hall)

theorem applyEvent_benign (fs : FS) (e : Event) (hb : e.benign = true) :
    fs.applyEvent e = .ok (fs.applyE e) := by
  cases e with
  | mkdirP d exist_ok =>
      simp [Event.benign] at hb
      subst hb
      by_cases hd : d ∈ fs.dirs <;> simp [FS.applyEvent, FS.applyE, hd]
  | touch f => rfl
  | spawn c => rfl
  | writeLines f l => rfl
  | unlink f => simp [Event.benign] at hb

theorem applyEvents_benign (fs : FS) (l : List Event)
    (hb : ∀ e ∈ l, e.benign = true) :
    fs.applyEvents l = .ok (fs.runEvents l) := by
  induction l generalizing fs with
  | nil => rfl
  | cons e0 rest ih =>
      have h0 := applyEvent_benign fs e0 (hb e0 (by simp))
      have : fs.applyEvents (e0 :: rest) = (fs.applyE e0).applyEvents rest := by
        simp [FS.applyEvents, h0]
      rw [this]
      simpa [FS.runEvents] using
        ih (fs.applyE e0) (fun e he => hb e (List.mem_cons.mpr (Or.inr he)))

theorem setupSceneEvents_mkdirTargets (p : MovieProject) (l : List Scene) :
    mkdirTargets (setupSceneEvents p l) = l.map (fun s => p.framesDir s.name) := by
  induction l with
  | nil => rfl
  | cons s rest ih => simp [setupSceneEvents, mkdirTargets] at ih ⊢; exact ih

theorem setupSceneEvents_touchTargets (p : MovieProject) (l : List Scene) :
    touchTargets (setupSceneEvents p l)
      = l.map (fun s => p.framesDir s.name ++ "/.gitkeep") := by
  induction l with
  | nil => rfl
  | cons s rest ih => simp [setupSceneEvents, touchTargets] at ih ⊢; exact ih

theorem setupSceneEvents_isSetup (p : MovieProject) (l : List Scene) :
    ∀ e ∈ setupSceneEvents p l, e.isSetup = true ∧ e.benign = true := by
  induction l with
  | nil => simp [setupSceneEvents]
  | cons s rest ih =>
      intro e he
      rcases List.mem_cons.mp he with rfl | he2
      · exact ⟨rfl, rfl⟩
      · rcases List.mem_cons.mp he2 with rfl | he3
        · exact ⟨rfl, rfl⟩
        · exact ih e he3

theorem setupEvents_isSetup (p : MovieProject) :
    ∀ e ∈ p.setupEvents, e.isSetup = true ∧ e.benign = true := by
  intro e he
  rcases List.mem_append.mp he with h1 | h2
  · exact setupSceneEvents_isSetup p p.scenes e h1
  · rcases List.mem_cons.mp h2 with rfl | h3
    · exact ⟨rfl, rfl⟩
    · rcases List.mem_cons.mp h3 with rfl | h4
      · exact ⟨rfl, rfl⟩
      · simp at h4

/-- C4: for every definition with N scenes, `setup_output_directories`
issues exactly N+1 directory creations — the per-scene frames directory
`renders/frames/<scene_name>` under the project base directory for each
scene in order, plus the parent directory of the final output path —
and touches a `.gitkeep` marker in each; running the trace on any
filesystem succeeds (no error is raised), and running it a second time
on the resulting filesystem succeeds and is a no-op. -/
theorem setup_output_directories_spec (p : MovieProject) (fs : FS) :
    mkdirTargets p.setupEvents
      = p.scenes.map (fun s => p.framesDir s.name) ++ [parentDir p.get_output_path]
    ∧ (mkdirTargets p.setupEvents).length = p.scenes.length + 1
    ∧ touchTargets p.setupEvents
      = p.scenes.map (fun s => p.framesDir s.name ++ "/.gitkeep")
          ++ [parentDir p.get_output_path ++ "/.gitkeep"]
    ∧ fs.applyEvents p.setupEvents = .ok (fs.runEvents p.setupEvents)
    ∧ (fs.runEvents p.setupEvents).applyEvents p.setupEvents
        = .ok (fs.runEvents p.setupEvents) := by
  have hmk : mkdirTargets p.setupEvents
      = p.scenes.map (fun s => p.framesDir s.name) ++ [parentDir p.get_output_path] := by
    simp [MovieProject.setupEvents, mkdirTargets] at *
    simpa [mkdirTargets] using setupSceneEvents_mkdirTargets p p.scenes
  have htc : touchTargets p.setupEvents
      = p.scenes.map (fun s => p.framesDir s.name ++ "/.gitkeep")
          ++ [parentDir p.get_output_path ++ "/.gitkeep"] := by
    simp [MovieProject.setupEvents, touchTargets] at *
    simpa [touchTargets] using setupSceneEvents_touchTargets p p.scenes
  have hsetup : ∀ e ∈ p.setupEvents, e.isSetup = true :=
    fun e he => (setupEvents_isSetup p e he).1
  have hbenign : ∀ e ∈ p.setupEvents, e.benign = true :=
    fun e he => (setupEvents_isSetup p e he).2
  have hidem : (fs.runEvents p.setupEvents).runEvents p.setupEvents
      = fs.runEvents p.setupEvents := runEvents_idem fs p.setupEvents hsetup
  refine ⟨hmk, by simp [hmk], htc,
    applyEvents_benign fs p.setupEvents hbenign, ?_⟩
  have h2 := applyEvents_benign (fs.runEvents p.setupEvents) p.setupEvents hbenign
  rw [h2, hidem]
